import Mathlib

/-!
Verification of the easy-slot appointment scheduler.

This file gives a shallow embedding of the pure/control-flow parts of the
repository (`src/utils/date_utils.py`, `src/config/config_loader.py`,
`src/browser/drivers.py`, `src/notification/notification_handler.py`,
`src/scheduler.py`) and proves properties of the embedded definitions.

Python exceptions are modelled by values of `PyExc`, fallible operations by
`Except PyExc _`.  Browser/SMTP side effects are modelled by oracle parameters
describing the outcome of the external interaction, and notifications that the
code emits are collected in explicit lists.
-/

deriving instance DecidableEq for Except

/-- Python exception kinds that the embedded code can raise. -/
inductive PyExc where
  | valueError (msg : String)
  | attributeError (msg : String)
  | keyError (msg : String)
  | timeoutException
  | noSuchElement
  | otherError (msg : String)
deriving DecidableEq, Repr

/-- `str(e)` for an embedded exception: the message a handler interpolates. -/
def excMsg : PyExc → String
  | .valueError m => m
  | .attributeError m => m
  | .keyError m => m
  | .timeoutException => "TimeoutException"
  | .noSuchElement => "NoSuchElementException"
  | .otherError m => m

/-! ## Dates: `src/utils/date_utils.py`

`datetime.strptime(s, "%Y-%m-%d")` accepts 1-4 digit years, 1-2 digit months
and days, separated by literal dashes, with no surrounding junk, and then
validates the calendar date (month 1-12, day within the month, year >= 1).
The parsed value compares as the lexicographic triple (year, month, day)
since the time-of-day components are all zero. -/

/-- A parsed calendar date (what `datetime.strptime` returns; time is 0). -/
structure Date where
  year : Nat
  month : Nat
  day : Nat
deriving DecidableEq, Repr

/-- Gregorian leap-year rule, as used by `datetime`. -/
def isLeapYear (y : Nat) : Bool :=
  (y % 4 = 0) && (!(y % 100 = 0) || (y % 400 = 0))

/-- Number of days in a month, as validated by `datetime`. -/
def daysInMonth (y m : Nat) : Nat :=
  if m = 2 then (if isLeapYear y then 29 else 28)
  else if m = 4 || m = 6 || m = 9 || m = 11 then 30
  else 31

/-- Split a character list at every occurrence of `sep`
(the semantics of Python `str.split` with a one-character separator). -/
def splitOnChar (sep : Char) : List Char → List (List Char)
  | [] => [[]]
  | c :: rest =>
    match splitOnChar sep rest with
    | [] => [[]]
    | g :: gs => if c = sep then [] :: g :: gs else (c :: g) :: gs

/-- Python `s.split(sep)` for a one-character separator. -/
def pySplit (s : String) (sep : Char) : List String :=
  (splitOnChar sep s.data).map String.mk

/-- Numeric value of a digit group. -/
def natOfDigits (cs : List Char) : Nat :=
  cs.foldl (fun acc c => 10 * acc + (c.toNat - '0'.toNat)) 0

/-- A non-empty all-digit group of at most `maxLen` characters
(the shape `%Y`/`%m`/`%d` accept, with max widths 4/2/2). -/
def digitGroup (cs : List Char) (maxLen : Nat) : Bool :=
  !cs.isEmpty && cs.all Char.isDigit && cs.length ≤ maxLen

/-- `datetime.strptime(s, "%Y-%m-%d")`: three dash-separated digit groups,
then calendar validation by the `datetime` constructor. -/
def strptime_Ymd (s : String) : Except PyExc Date :=
  match splitOnChar '-' s.data with
  | [ys, ms, ds] =>
    if digitGroup ys 4 && digitGroup ms 2 && digitGroup ds 2 then
      let y := natOfDigits ys
      let m := natOfDigits ms
      let d := natOfDigits ds
      if 1 ≤ y && 1 ≤ m && m ≤ 12 && 1 ≤ d && d ≤ daysInMonth y m then
        .ok ⟨y, m, d⟩
      else
        .error (.valueError ("time data " ++ s ++ " does not match format %Y-%m-%d"))
    else
      .error (.valueError ("time data " ++ s ++ " does not match format %Y-%m-%d"))
  | _ => .error (.valueError ("time data " ++ s ++ " does not match format %Y-%m-%d"))

/-- `datetime` comparison `a <= b` (time components are zero). -/
def dateLe (a b : Date) : Bool :=
  decide (a.year < b.year ∨ (a.year = b.year ∧
    (a.month < b.month ∨ (a.month = b.month ∧ a.day ≤ b.day))))

/-- `datetime` comparison `a < b` (time components are zero). -/
def dateLt (a b : Date) : Bool :=
  decide (a.year < b.year ∨ (a.year = b.year ∧
    (a.month < b.month ∨ (a.month = b.month ∧ a.day < b.day))))

/-- `DateUtils.is_date_in_range`: an empty `date_str` short-circuits to
`False`; otherwise the three arguments are parsed in order and the
boundary-inclusive comparison `start <= date <= end` is returned. -/
def is_date_in_range (date_str start_date_str end_date_str : String) :
    Except PyExc Bool :=
  if date_str = "" then .ok false
  else
    match strptime_Ymd date_str with
    | .error e => .error e
    | .ok date =>
      match strptime_Ymd start_date_str with
      | .error e => .error e
      | .ok start_date =>
        match strptime_Ymd end_date_str with
        | .error e => .error e
        | .ok end_date => .ok (dateLe start_date date && dateLe date end_date)

/-- `dateLe` is reflexive. -/
theorem dateLe_refl (a : Date) : dateLe a a = true := by
  simp [dateLe]

/-- `dateLt` is the strict complement of `dateLe` the other way round. -/
theorem dateLt_iff_not_le (a b : Date) : dateLt a b = true ↔ dateLe b a = false := by
  simp only [dateLt, dateLe, decide_eq_true_eq, decide_eq_false_iff_not]
  omega

/-- The empty string does not parse. -/
theorem strptime_Ymd_empty :
    strptime_Ymd "" =
      .error (.valueError "time data  does not match format %Y-%m-%d") := by
  decide

/-- When the three arguments parse, `is_date_in_range` returns the
boundary-inclusive comparison result. -/
theorem is_date_in_range_eq (dstr sstr estr : String) (dd ds de : Date)
    (hd : strptime_Ymd dstr = .ok dd) (hs : strptime_Ymd sstr = .ok ds)
    (he : strptime_Ymd estr = .ok de) :
    is_date_in_range dstr sstr estr = .ok (dateLe ds dd && dateLe dd de) := by
  have hne : dstr ≠ "" := by
    intro h
    rw [h, strptime_Ymd_empty] at hd
    exact Except.noConfusion hd
  simp [is_date_in_range, hne, hd, hs, he]

/-- C1: for all date strings `d`, `s`, `e` that parse under `%Y-%m-%d`,
`is_date_in_range d s e` returns `True` iff `s <= d <= e`; both boundaries
are included (`d = s` and `d = e` both yield `True`), and a `d` strictly
before `s` or strictly after `e` yields `False`. -/
theorem is_date_in_range_boundary_inclusive (dstr sstr estr : String)
    (dd ds de : Date)
    (hd : strptime_Ymd dstr = .ok dd) (hs : strptime_Ymd sstr = .ok ds)
    (he : strptime_Ymd estr = .ok de) :
    (is_date_in_range dstr sstr estr = .ok true ↔
      (dateLe ds dd = true ∧ dateLe dd de = true))
    ∧ (dd = ds → dateLe dd de = true →
        is_date_in_range dstr sstr estr = .ok true)
    ∧ (dd = de → dateLe ds dd = true →
        is_date_in_range dstr sstr estr = .ok true)
    ∧ (dateLt dd ds = true → is_date_in_range dstr sstr estr = .ok false)
    ∧ (dateLt de dd = true → is_date_in_range dstr sstr estr = .ok false) := by
  have hmain := is_date_in_range_eq dstr sstr estr dd ds de hd hs he
  refine ⟨?_, ?_, ?_, ?_, ?_⟩
  · rw [hmain]
    simp [Bool.and_eq_true]
  · intro h1 h2
    subst h1
    simp [hmain, dateLe_refl, h2]
  · intro h1 h2
    subst h1
    simp [hmain, dateLe_refl, h2]
  · intro h
    have hle : dateLe ds dd = false := (dateLt_iff_not_le dd ds).mp h
    simp [hmain, hle]
  · intro h
    have hle : dateLe dd de = false := (dateLt_iff_not_le de dd).mp h
    simp [hmain, hle]

/-- Witness for C1 at concrete dates: `d = s = 2024-05-10`, `e = 2024-06-01`
gives `True` at the left boundary. -/
theorem is_date_in_range_boundary_inclusive_witness :
    is_date_in_range "2024-05-10" "2024-05-10" "2024-06-01" = .ok true :=
  (is_date_in_range_boundary_inclusive "2024-05-10" "2024-05-10" "2024-06-01"
    ⟨2024, 5, 10⟩ ⟨2024, 5, 10⟩ ⟨2024, 6, 1⟩
    (by decide) (by decide) (by decide)).2.1 rfl (by decide)

/-- C8 counterexample: the empty `date_str` does not parse under `%Y-%m-%d`,
yet `is_date_in_range` returns the boolean `False` instead of raising. -/
theorem is_date_in_range_empty_counterexample :
    strptime_Ymd "" =
      .error (.valueError "time data  does not match format %Y-%m-%d")
    ∧ is_date_in_range "" "2024-01-01" "2024-12-31" = .ok false := by
  constructor
  · decide
  · decide

/-- C8 amended: for a non-empty `date_str` the three arguments are parsed in
order with `%Y-%m-%d` and the comparison result is returned; a parse failure
of any argument propagates as a `ValueError`; an empty `date_str` instead
short-circuits to `False` without any parsing. -/
theorem is_date_in_range_parses (dstr sstr estr : String) :
    (dstr = "" → is_date_in_range dstr sstr estr = .ok false)
    ∧ (dstr ≠ "" → ∀ err, strptime_Ymd dstr = .error err →
        is_date_in_range dstr sstr estr = .error err)
    ∧ (∀ dd, strptime_Ymd dstr = .ok dd → ∀ err, strptime_Ymd sstr = .error err →
        is_date_in_range dstr sstr estr = .error err)
    ∧ (∀ dd ds, strptime_Ymd dstr = .ok dd → strptime_Ymd sstr = .ok ds →
        ∀ err, strptime_Ymd estr = .error err →
        is_date_in_range dstr sstr estr = .error err)
    ∧ (∀ dd ds de, strptime_Ymd dstr = .ok dd → strptime_Ymd sstr = .ok ds →
        strptime_Ymd estr = .ok de →
        is_date_in_range dstr sstr estr = .ok (dateLe ds dd && dateLe dd de)) := by
  refine ⟨?_, ?_, ?_, ?_, ?_⟩
  · intro h
    simp [is_date_in_range, h]
  · intro hne err herr
    simp [is_date_in_range, hne, herr]
  · intro dd hdd err herr
    have hne : dstr ≠ "" := by
      intro h
      rw [h, strptime_Ymd_empty] at hdd
      exact Except.noConfusion hdd
    simp [is_date_in_range, hne, hdd, herr]
  · intro dd ds hdd hds err herr
    have hne : dstr ≠ "" := by
      intro h
      rw [h, strptime_Ymd_empty] at hdd
      exact Except.noConfusion hdd
    simp [is_date_in_range, hne, hdd, hds, herr]
  · intro dd ds de hdd hds hde
    exact is_date_in_range_eq dstr sstr estr dd ds de hdd hds hde

/-- Witness for the amended C8: a malformed start date raises a `ValueError`. -/
theorem is_date_in_range_parses_witness :
    is_date_in_range "2024-05-10" "2024-13-01" "2024-12-31" =
      .error (.valueError "time data 2024-13-01 does not match format %Y-%m-%d") :=
  (is_date_in_range_parses "2024-05-10" "2024-13-01" "2024-12-31").2.2.1
    ⟨2024, 5, 10⟩ (by decide) _ (by decide)

/-! ## Configuration: `src/config/config_loader.py`

A YAML-loaded configuration is an arbitrary Python value; dictionaries are
modelled as association lists (first binding wins, as Python keys are
unique). -/

/-- An embedded Python value. -/
inductive PyVal where
  | none
  | bool (b : Bool)
  | int (n : Int)
  | str (s : String)
  | list (xs : List PyVal)
  | dict (entries : List (String × PyVal))

/-- A Python dictionary with string keys. -/
abbrev PyDict := List (String × PyVal)

/-- First binding of a key in a dictionary. -/
def dictLookup : PyDict → String → Option PyVal
  | [], _ => Option.none
  | (k, v) :: rest, key => if k = key then some v else dictLookup rest key

/-- Python `key in d`. -/
def pyIn (key : String) (d : PyDict) : Bool :=
  (dictLookup d key).isSome

/-- Python `d[key]` (raises `KeyError` when absent). -/
def pyIndex (d : PyDict) (key : String) : Except PyExc PyVal :=
  match dictLookup d key with
  | some v => .ok v
  | Option.none => .error (.keyError key)

/-- Python `v.get(key)`: default `None` on a dict, `AttributeError` on any
other value. -/
def pyGet (v : PyVal) (key : String) : Except PyExc PyVal :=
  match v with
  | .dict entries => .ok ((dictLookup entries key).getD .none)
  | _ => .error (.attributeError "object has no attribute get")

/-- Python `v.get(key, default)` on a dict, `AttributeError` otherwise. -/
def pyGetD (v : PyVal) (key : String) (dflt : PyVal) : Except PyExc PyVal :=
  match v with
  | .dict entries => .ok ((dictLookup entries key).getD dflt)
  | _ => .error (.attributeError "object has no attribute get")

/-- Python truthiness. -/
def truthy : PyVal → Bool
  | .none => false
  | .bool b => b
  | .int n => n ≠ 0
  | .str s => s ≠ ""
  | .list xs => !xs.isEmpty
  | .dict entries => !entries.isEmpty

/-- The `required_sections` list of `ConfigLoader.validate_config`. -/
def required_sections : List String :=
  ["credentials", "browser", "appointment", "monitoring"]

/-- The `required_fields` list of `ConfigLoader.validate_config`. -/
def required_fields : List String :=
  ["credentials.email", "credentials.password", "appointment.ivr_number",
   "appointment.preferred_cities", "appointment.date_range.start_date",
   "appointment.date_range.end_date", "monitoring.check_interval",
   "monitoring.retry_interval", "browser.type"]

/-- The first loop of `validate_config`: each section must be a key of the
config, else `ValueError` naming the section. -/
def checkSections : List String → PyDict → Except PyExc Unit
  | [], _ => .ok ()
  | s :: rest, config =>
    if pyIn s config then checkSections rest config
    else .error (.valueError ("Missing required configuration section: " ++ s))

/-- The email/password check of `validate_config`:
`if not config["credentials"].get("email") or not ... .get("password")`. -/
def checkCredentials (config : PyDict) : Except PyExc Unit :=
  match pyIndex config "credentials" with
  | .error e => .error e
  | .ok creds =>
    match pyGet creds "email" with
    | .error e => .error e
    | .ok email =>
      match pyGet creds "password" with
      | .error e => .error e
      | .ok password =>
        if !truthy email || !truthy password then
          .error (.valueError "Missing email or password in credentials section")
        else .ok ()

/-- The preferred-cities check of `validate_config`:
`if not config["appointment"].get("preferred_cities")`. -/
def checkCities (config : PyDict) : Except PyExc Unit :=
  match pyIndex config "appointment" with
  | .error e => .error e
  | .ok appointment =>
    match pyGet appointment "preferred_cities" with
    | .error e => .error e
    | .ok cities =>
      if !truthy cities then
        .error (.valueError "No preferred cities specified in appointment section")
      else .ok ()

/-- The inner loop of `validate_config` walking the parts of one dotted
field: each step requires the current value to be a dict holding the part. -/
def checkPath (field : String) : List String → PyVal → Except PyExc Unit
  | [], _ => .ok ()
  | part :: rest, current =>
    match current with
    | .dict entries =>
      match dictLookup entries part with
      | some next => checkPath field rest next
      | Option.none =>
        .error (.valueError ("Missing required configuration field: " ++ field))
    | _ => .error (.valueError ("Missing required configuration field: " ++ field))

/-- The second loop of `validate_config` over the dotted `required_fields`. -/
def checkFields : List String → PyDict → Except PyExc Unit
  | [], _ => .ok ()
  | f :: rest, config =>
    match checkPath f (pySplit f '.') (.dict config) with
    | .error e => .error e
    | .ok _ => checkFields rest config

/-- `ConfigLoader.validate_config`: section presence, credential and city
truthiness, dotted-field presence, then `True`. -/
def validate_config (config : PyDict) : Except PyExc Bool :=
  match checkSections required_sections config with
  | .error e => .error e
  | .ok _ =>
    match checkCredentials config with
    | .error e => .error e
    | .ok _ =>
      match checkCities config with
      | .error e => .error e
      | .ok _ =>
        match checkFields required_fields config with
        | .error e => .error e
        | .ok _ => .ok true

/-- A dotted path is present: every part resolves through nested dicts. -/
def dottedPresent : PyVal → List String → Bool
  | _, [] => true
  | .dict entries, part :: rest =>
    match dictLookup entries part with
    | some next => dottedPresent next rest
    | Option.none => false
  | _, _ :: _ => false

/-- A dotted required field is present in the config. -/
def fieldPresent (config : PyDict) (field : String) : Bool :=
  dottedPresent (.dict config) (pySplit field '.')

/-- The credentials and appointment sections are dicts whose `email`,
`password` and `preferred_cities` entries are truthy. -/
def credsOk (config : PyDict) : Bool :=
  match dictLookup config "credentials", dictLookup config "appointment" with
  | some (.dict ce), some (.dict ae) =>
    truthy ((dictLookup ce "email").getD .none)
      && truthy ((dictLookup ce "password").getD .none)
      && truthy ((dictLookup ae "preferred_cities").getD .none)
  | _, _ => false

/-- `checkSections` only fails with a `ValueError`. -/
theorem checkSections_error (l : List String) (c : PyDict) (e : PyExc)
    (h : checkSections l c = .error e) : ∃ m, e = .valueError m := by
  induction l with
  | nil => simp [checkSections] at h
  | cons s rest ih =>
    by_cases hs : pyIn s c = true
    · simp only [checkSections, hs, if_true] at h
      exact ih h
    · unfold checkSections at h
      rw [if_neg hs] at h
      exact ⟨_, (Except.error.inj h).symm⟩

/-- A section missing from the config makes `checkSections` fail with the
`ValueError` naming a (the first) missing section. -/
theorem checkSections_missing (l : List String) (c : PyDict) (s : String)
    (hmem : s ∈ l) (habs : pyIn s c = false) :
    ∃ t, t ∈ l ∧ pyIn t c = false ∧
      checkSections l c =
        .error (.valueError ("Missing required configuration section: " ++ t)) := by
  induction l with
  | nil => cases hmem
  | cons t rest ih =>
    by_cases ht : pyIn t c = true
    · rcases List.mem_cons.mp hmem with rfl | hrest
      · rw [ht] at habs
        cases habs
      · obtain ⟨u, hum, hua, hue⟩ := ih hrest
        exact ⟨u, by simp [hum], hua, by simp [checkSections, ht, hue]⟩
    · have ht' : pyIn t c = false := by simpa using ht
      refine ⟨t, by simp, ht', ?_⟩
      unfold checkSections
      rw [if_neg ht]

/-- All sections present means `checkSections` succeeds. -/
theorem checkSections_ok (l : List String) (c : PyDict)
    (h : ∀ s ∈ l, pyIn s c = true) : checkSections l c = .ok () := by
  induction l with
  | nil => rfl
  | cons s rest ih =>
    have hs : pyIn s c = true := h s (by simp)
    simp only [checkSections, hs, if_true]
    exact ih (fun x hx => h x (by simp [hx]))

/-- `checkPath` succeeds exactly on present dotted paths, else fails with the
`ValueError` naming the field. -/
theorem checkPath_eq (f : String) (parts : List String) (v : PyVal) :
    checkPath f parts v =
      if dottedPresent v parts then .ok ()
      else .error (.valueError ("Missing required configuration field: " ++ f)) := by
  induction parts generalizing v with
  | nil => simp [checkPath, dottedPresent]
  | cons p rest ih =>
    cases v
    case dict entries =>
      cases hlk : dictLookup entries p
      case none => simp [checkPath, dottedPresent, hlk]
      case some next => simp [checkPath, dottedPresent, hlk, ih]
    all_goals simp [checkPath, dottedPresent]

/-- A missing dotted field makes `checkFields` fail with the `ValueError`
naming a (the first) missing field. -/
theorem checkFields_missing (l : List String) (c : PyDict) (f : String)
    (hmem : f ∈ l) (habs : fieldPresent c f = false) :
    ∃ g, g ∈ l ∧ fieldPresent c g = false ∧
      checkFields l c =
        .error (.valueError ("Missing required configuration field: " ++ g)) := by
  induction l with
  | nil => cases hmem
  | cons g rest ih =>
    by_cases hg : dottedPresent (.dict c) (pySplit g '.') = true
    · rcases List.mem_cons.mp hmem with rfl | hrest
      · rw [fieldPresent] at habs
        rw [hg] at habs
        cases habs
      · obtain ⟨u, hum, hua, hue⟩ := ih hrest
        exact ⟨u, by simp [hum], hua, by simp [checkFields, checkPath_eq, hg, hue]⟩
    · have hg' : fieldPresent c g = false := by
        rw [fieldPresent]
        simpa using hg
      exact ⟨g, by simp, hg',
        by simp [checkFields, checkPath_eq, hg]⟩

/-- All dotted fields present means `checkFields` succeeds. -/
theorem checkFields_ok (l : List String) (c : PyDict)
    (h : ∀ f ∈ l, fieldPresent c f = true) : checkFields l c = .ok () := by
  induction l with
  | nil => rfl
  | cons g rest ih =>
    have hg : dottedPresent (.dict c) (pySplit g '.') = true := h g (by simp)
    simp only [checkFields, checkPath_eq, hg, if_true]
    exact ih (fun x hx => h x (by simp [hx]))

/-- Unpacking `credsOk`. -/
theorem credsOk_spec (config : PyDict) (h : credsOk config = true) :
    ∃ ce ae, dictLookup config "credentials" = some (.dict ce)
      ∧ dictLookup config "appointment" = some (.dict ae)
      ∧ truthy ((dictLookup ce "email").getD .none) = true
      ∧ truthy ((dictLookup ce "password").getD .none) = true
      ∧ truthy ((dictLookup ae "preferred_cities").getD .none) = true := by
  unfold credsOk at h
  split at h
  case h_1 ce ae heq1 heq2 =>
    simp only [Bool.and_eq_true] at h
    exact ⟨ce, ae, heq1, heq2, h.1.1, h.1.2, h.2⟩
  case h_2 => cases h

/-- Truthy credentials let `checkCredentials` succeed. -/
theorem checkCredentials_ok (config : PyDict) (h : credsOk config = true) :
    checkCredentials config = .ok () := by
  obtain ⟨ce, _, h1, _, h3, h4, _⟩ := credsOk_spec config h
  simp [checkCredentials, pyIndex, h1, pyGet, h3, h4]

/-- Truthy preferred cities let `checkCities` succeed. -/
theorem checkCities_ok (config : PyDict) (h : credsOk config = true) :
    checkCities config = .ok () := by
  obtain ⟨_, ae, _, h2, _, _, h5⟩ := credsOk_spec config h
  simp [checkCities, pyIndex, h2, pyGet, h5]

/-- A present dotted path starts with a present top-level key. -/
theorem dottedPresent_head (c : PyDict) (p : String) (rest : List String)
    (h : dottedPresent (.dict c) (p :: rest) = true) : pyIn p c = true := by
  unfold dottedPresent at h
  cases hlk : dictLookup c p
  case none => simp [hlk] at h
  case some v => simp [pyIn, hlk]

/-- A complete configuration whose `credentials.email` is the empty string:
every required section and dotted field is present. -/
def fullConfigEmptyEmail : PyDict :=
  [("credentials", .dict [("email", .str ""), ("password", .str "pw")]),
   ("browser", .dict [("type", .str "chrome")]),
   ("appointment", .dict
     [("ivr_number", .str "123"),
      ("preferred_cities", .list [.str "Toronto"]),
      ("date_range", .dict
        [("start_date", .str "2024-01-01"), ("end_date", .str "2024-12-31")])]),
   ("monitoring", .dict [("check_interval", .int 300), ("retry_interval", .int 60)])]

/-- C2 counterexample: in `fullConfigEmptyEmail` every required section and
every required dotted field is present, yet `validate_config` raises a
`ValueError` instead of returning `True`. -/
theorem validate_config_counterexample :
    (∀ s ∈ required_sections, pyIn s fullConfigEmptyEmail = true)
    ∧ (∀ f ∈ required_fields, fieldPresent fullConfigEmptyEmail f = true)
    ∧ validate_config fullConfigEmptyEmail =
        .error (.valueError "Missing email or password in credentials section")
    ∧ validate_config fullConfigEmptyEmail ≠ .ok true := by
  refine ⟨by decide, by decide, by decide, by decide⟩

/-- C2 amended: `validate_config` raises a `ValueError` naming a missing
section whenever a required section is absent; when the
credentials/appointment sections are dicts with truthy `email`, `password`
and `preferred_cities`, it raises a `ValueError` naming a missing item — a
missing required section, or a missing required dotted field — whenever a
required dotted field is absent; and it returns `True` when, additionally,
every required dotted field is present. -/
theorem validate_config_required (config : PyDict) :
    ((∃ s ∈ required_sections, pyIn s config = false) →
      ∃ s, s ∈ required_sections ∧ pyIn s config = false ∧
        validate_config config =
          .error (.valueError ("Missing required configuration section: " ++ s)))
    ∧ (credsOk config = true →
      (∃ f ∈ required_fields, fieldPresent config f = false) →
      ∃ m, validate_config config = .error (.valueError m) ∧
        ((∃ s, s ∈ required_sections ∧ pyIn s config = false ∧
            m = "Missing required configuration section: " ++ s)
          ∨ (∃ f, f ∈ required_fields ∧ fieldPresent config f = false ∧
            m = "Missing required configuration field: " ++ f)))
    ∧ (credsOk config = true →
      (∀ f ∈ required_fields, fieldPresent config f = true) →
      validate_config config = .ok true) := by
  refine ⟨?_, ?_, ?_⟩
  · intro ⟨s, hmem, habs⟩
    obtain ⟨t, htm, hta, hte⟩ :=
      checkSections_missing required_sections config s hmem habs
    exact ⟨t, htm, hta, by simp [validate_config, hte]⟩
  · intro hcreds ⟨f, hmem, habs⟩
    by_cases hallsec : ∀ s ∈ required_sections, pyIn s config = true
    · have hsec := checkSections_ok required_sections config hallsec
      have hcred := checkCredentials_ok config hcreds
      have hcity := checkCities_ok config hcreds
      obtain ⟨g, hgm, hga, hge⟩ :=
        checkFields_missing required_fields config f hmem habs
      refine ⟨"Missing required configuration field: " ++ g, ?_,
        Or.inr ⟨g, hgm, hga, rfl⟩⟩
      simp [validate_config, hsec, hcred, hcity, hge]
    · push_neg at hallsec
      obtain ⟨s, hsm, hsa⟩ := hallsec
      have hsa' : pyIn s config = false := by simpa using hsa
      obtain ⟨t, htm, hta, hte⟩ :=
        checkSections_missing required_sections config s hsm hsa'
      refine ⟨"Missing required configuration section: " ++ t, ?_,
        Or.inl ⟨t, htm, hta, rfl⟩⟩
      simp [validate_config, hte]
  · intro hcreds hall
    obtain ⟨ce, ae, h1, h2, _, _, _⟩ := credsOk_spec config hcreds
    have hsec : checkSections required_sections config = .ok () := by
      apply checkSections_ok
      intro s hs
      have hb : pyIn "browser" config = true :=
        dottedPresent_head config "browser" ["type"]
          (hall "browser.type" (by decide))
      have hmo : pyIn "monitoring" config = true :=
        dottedPresent_head config "monitoring" ["check_interval"]
          (hall "monitoring.check_interval" (by decide))
      simp only [required_sections, List.mem_cons, List.mem_singleton,
        List.not_mem_nil, or_false] at hs
      rcases hs with rfl | rfl | rfl | rfl
      · simp [pyIn, h1]
      · exact hb
      · simp [pyIn, h2]
      · exact hmo
    have hcred := checkCredentials_ok config hcreds
    have hcity := checkCities_ok config hcreds
    have hfields := checkFields_ok required_fields config hall
    simp [validate_config, hsec, hcred, hcity, hfields]

/-- A complete, truthy configuration. -/
def fullConfigOk : PyDict :=
  [("credentials", .dict [("email", .str "user@example.com"), ("password", .str "pw")]),
   ("browser", .dict [("type", .str "chrome")]),
   ("appointment", .dict
     [("ivr_number", .str "123"),
      ("preferred_cities", .list [.str "Toronto"]),
      ("date_range", .dict
        [("start_date", .str "2024-01-01"), ("end_date", .str "2024-12-31")])]),
   ("monitoring", .dict [("check_interval", .int 300), ("retry_interval", .int 60)])]

/-- Witness for the amended C2: the complete truthy config validates. -/
theorem validate_config_required_witness :
    validate_config fullConfigOk = .ok true :=
  (validate_config_required fullConfigOk).2.2 (by decide) (by decide)

/-- A configuration template whose required non-credential leaf fields carry
arbitrary values while `email`, `password` and `preferred_cities` are truthy. -/
def otherFieldsConfig (ivr startD endD checkI retryI btype : PyVal) : PyDict :=
  [("credentials", .dict [("email", .str "user@example.com"), ("password", .str "pw")]),
   ("browser", .dict [("type", btype)]),
   ("appointment", .dict
     [("ivr_number", ivr),
      ("preferred_cities", .list [.str "Toronto"]),
      ("date_range", .dict [("start_date", startD), ("end_date", endD)])]),
   ("monitoring", .dict [("check_interval", checkI), ("retry_interval", retryI)])]

/-- C10: with all sections present, a present-but-falsy `credentials.email`
or `credentials.password` raises the credentials `ValueError`, a
present-but-falsy `appointment.preferred_cities` raises the cities
`ValueError`, and every other required leaf field (`ivr_number`,
`date_range.start_date`, `date_range.end_date`, `check_interval`,
`retry_interval`, `browser.type`) passes validation with any value at all,
`None` included, as long as its key is present. -/
theorem validate_config_empty_rules :
    (∀ (config : PyDict) (ce ae : PyDict),
      (∀ s ∈ required_sections, pyIn s config = true) →
      dictLookup config "credentials" = some (.dict ce) →
      dictLookup config "appointment" = some (.dict ae) →
      ((truthy ((dictLookup ce "email").getD .none) = false ∨
        truthy ((dictLookup ce "password").getD .none) = false) →
        validate_config config =
          .error (.valueError "Missing email or password in credentials section"))
      ∧ (truthy ((dictLookup ce "email").getD .none) = true →
         truthy ((dictLookup ce "password").getD .none) = true →
         truthy ((dictLookup ae "preferred_cities").getD .none) = false →
         validate_config config =
          .error (.valueError "No preferred cities specified in appointment section")))
    ∧ (∀ ivr startD endD checkI retryI btype : PyVal,
        validate_config (otherFieldsConfig ivr startD endD checkI retryI btype) =
          .ok true) := by
  constructor
  · intro config ce ae hsects hce hae
    have hsec : checkSections required_sections config = .ok () :=
      checkSections_ok required_sections config hsects
    constructor
    · intro hor
      have hcred : checkCredentials config =
          .error (.valueError "Missing email or password in credentials section") := by
        rcases hor with h | h
        · simp [checkCredentials, pyIndex, hce, pyGet, h]
        · simp [checkCredentials, pyIndex, hce, pyGet, h]
      simp [validate_config, hsec, hcred]
    · intro he hp hc
      have hcred : checkCredentials config = .ok () := by
        simp [checkCredentials, pyIndex, hce, pyGet, he, hp]
      have hcity : checkCities config =
          .error (.valueError "No preferred cities specified in appointment section") := by
        simp [checkCities, pyIndex, hae, pyGet, hc]
      simp [validate_config, hsec, hcred, hcity]
  · intro ivr startD endD checkI retryI btype
    rfl

/-- Witness for C10: a present-but-empty password raises, and a config whose
other leaf fields are all `None` validates. -/
theorem validate_config_empty_rules_witness :
    validate_config
      [("credentials", .dict [("email", .str "user@example.com"), ("password", .str "")]),
       ("browser", .dict [("type", .str "chrome")]),
       ("appointment", .dict [("preferred_cities", .list [.str "Toronto"])]),
       ("monitoring", .dict [])] =
      .error (.valueError "Missing email or password in credentials section")
    ∧ validate_config (otherFieldsConfig .none .none .none .none .none .none) =
        .ok true :=
  ⟨((validate_config_empty_rules.1
      [("credentials", .dict [("email", .str "user@example.com"), ("password", .str "")]),
       ("browser", .dict [("type", .str "chrome")]),
       ("appointment", .dict [("preferred_cities", .list [.str "Toronto"])]),
       ("monitoring", .dict [])]
      [("email", .str "user@example.com"), ("password", .str "")]
      [("preferred_cities", .list [.str "Toronto"])]
      (by decide) (by rfl) (by rfl)).1 (Or.inr (by decide))),
   validate_config_empty_rules.2 .none .none .none .none .none .none⟩

/-! ## Browser factory: `src/browser/drivers.py` -/

/-- The browser kinds `BrowserFactory` can set up. -/
inductive BrowserKind where
  | chrome
  | firefox
  | edge
deriving DecidableEq, Repr

/-- A configured driver: its kind and whether the headless flag was applied
(`--headless` added to the options). -/
structure Driver where
  kind : BrowserKind
  headless : Bool
deriving DecidableEq, Repr

/-- ASCII lowering of one character (`str.lower` on the relevant alphabet). -/
def lowerChar (c : Char) : Char :=
  if 'A' ≤ c ∧ c ≤ 'Z' then Char.ofNat (c.toNat + 32) else c

/-- Python `s.lower()` on ASCII strings. -/
def lowerStr (s : String) : String :=
  ⟨s.data.map lowerChar⟩

/-- `BrowserFactory.create_driver`: `config.get("type", "chrome").lower()`
selects among the three setup helpers, `config.get("headless", False)` is the
headless flag, and any other type string raises `ValueError` naming it. -/
def create_driver (config : PyDict) : Except PyExc Driver :=
  match (dictLookup config "type").getD (.str "chrome") with
  | .str s =>
    let browser_type := lowerStr s
    let headless := truthy ((dictLookup config "headless").getD (.bool false))
    if browser_type = "chrome" then .ok ⟨.chrome, headless⟩
    else if browser_type = "firefox" then .ok ⟨.firefox, headless⟩
    else if browser_type = "edge" then .ok ⟨.edge, headless⟩
    else .error (.valueError ("Unsupported browser type: " ++ browser_type))
  | _ => .error (.attributeError "object has no attribute lower")

/-- The headless flag `create_driver` passes to the setup helpers. -/
def headlessOf (config : PyDict) : Bool :=
  truthy ((dictLookup config "headless").getD (.bool false))

/-- C6: `create_driver` supports exactly chrome, firefox and edge: a string
`type` lowering to one of them yields the corresponding driver with the
headless flag applied; an absent `type` defaults to chrome; any other type
string raises `ValueError` naming the (lowered) unsupported type. -/
theorem create_driver_three_browsers (config : PyDict) (s : String) :
    (dictLookup config "type" = some (.str s) →
      ((lowerStr s = "chrome" →
          create_driver config = .ok ⟨.chrome, headlessOf config⟩)
        ∧ (lowerStr s = "firefox" →
          create_driver config = .ok ⟨.firefox, headlessOf config⟩)
        ∧ (lowerStr s = "edge" →
          create_driver config = .ok ⟨.edge, headlessOf config⟩)
        ∧ (lowerStr s ≠ "chrome" → lowerStr s ≠ "firefox" → lowerStr s ≠ "edge" →
          create_driver config =
            .error (.valueError ("Unsupported browser type: " ++ lowerStr s)))))
    ∧ (dictLookup config "type" = Option.none →
        create_driver config = .ok ⟨.chrome, headlessOf config⟩) := by
  constructor
  · intro htype
    refine ⟨?_, ?_, ?_, ?_⟩
    · intro h
      simp [create_driver, htype, h, headlessOf]
    · intro h
      have hne : lowerStr s ≠ "chrome" := by rw [h]; decide
      simp [create_driver, htype, h, hne, headlessOf]
    · intro h
      have hne1 : lowerStr s ≠ "chrome" := by rw [h]; decide
      have hne2 : lowerStr s ≠ "firefox" := by rw [h]; decide
      simp [create_driver, htype, h, hne1, hne2, headlessOf]
    · intro h1 h2 h3
      simp [create_driver, htype, h1, h2, h3]
  · intro habs
    simp [create_driver, habs, lowerStr, lowerChar, headlessOf]

/-- Witness for C6: a mixed-case `Edge` maps to the edge driver with the
headless flag, and an unsupported `safari` raises. -/
theorem create_driver_three_browsers_witness :
    create_driver [("type", .str "Edge"), ("headless", .bool true)] =
      .ok ⟨.edge, true⟩
    ∧ create_driver [("type", .str "safari")] =
      .error (.valueError "Unsupported browser type: safari") :=
  ⟨by
    have h := (create_driver_three_browsers
      [("type", .str "Edge"), ("headless", .bool true)] "Edge").1 (by rfl)
    have he := h.2.2.1 (by decide)
    rwa [show headlessOf [("type", .str "Edge"), ("headless", .bool true)] = true
      from by decide] at he,
   by
    have h := (create_driver_three_browsers [("type", .str "safari")] "safari").1 (by rfl)
    have he := h.2.2.2 (by decide) (by decide) (by decide)
    simpa using he⟩

/-! ## Notifications: `src/notification/notification_handler.py`

`notify` is modelled with two oracles: the outcome of composing the MIME
message and the outcome of the SMTP connect/starttls/login/send sequence.
Its result carries what happened plus whether the SMTP server was
contacted; the `Except` return type records whether an exception escapes. -/

/-- What a call to `NotificationHandler.notify` did. -/
inductive NotifyOutcome where
  | noRecipients
  | sent (recipients : List String) (body : String)
  | failedLogged (e : PyExc)
deriving DecidableEq, Repr

/-- `NotificationHandler.notify`: empty recipients warn and return before any
SMTP contact; otherwise exceptions from composing or sending are caught and
logged.  The boolean records whether the SMTP server was contacted. -/
def notify (message : String) (recipients : List String)
    (composeRes smtpRes : Except PyExc Unit) :
    Except PyExc (NotifyOutcome × Bool) :=
  if recipients.isEmpty then .ok (.noRecipients, false)
  else
    match composeRes with
    | .error e => .ok (.failedLogged e, false)
    | .ok _ =>
      match smtpRes with
      | .error e => .ok (.failedLogged e, true)
      | .ok _ => .ok (.sent recipients message, true)

/-- `NotificationHandler.notify_error`: prefixes the message and delegates. -/
def notify_error (error_message : String) (recipients : List String)
    (composeRes smtpRes : Except PyExc Unit) :
    Except PyExc (NotifyOutcome × Bool) :=
  notify ("Error occurred: " ++ error_message) recipients composeRes smtpRes

/-- `NotificationHandler.notify_appointment_found`: formats and delegates. -/
def notify_appointment_found (city date : String) (recipients : List String)
    (composeRes smtpRes : Except PyExc Unit) :
    Except PyExc (NotifyOutcome × Bool) :=
  notify ("Found available appointment!\nLocation: " ++ city ++ "\nDate: " ++ date)
    recipients composeRes smtpRes

/-- C9: `notify` never propagates an exception: with no recipients it returns
at once without contacting the SMTP server, and with recipients every
compose/send exception is caught and logged, so `notify`, `notify_error` and
`notify_appointment_found` always return normally. -/
theorem notify_never_raises (message : String) (recipients : List String)
    (composeRes smtpRes : Except PyExc Unit) :
    (∃ out, notify message recipients composeRes smtpRes = .ok out)
    ∧ (recipients = [] →
        notify message recipients composeRes smtpRes = .ok (.noRecipients, false))
    ∧ (∀ e, composeRes = .error e → recipients ≠ [] →
        notify message recipients composeRes smtpRes = .ok (.failedLogged e, false))
    ∧ (∀ e, composeRes = .ok () → smtpRes = .error e → recipients ≠ [] →
        notify message recipients composeRes smtpRes = .ok (.failedLogged e, true))
    ∧ (∃ out, notify_error message recipients composeRes smtpRes = .ok out)
    ∧ (∃ out, notify_appointment_found message message recipients composeRes smtpRes
        = .ok out) := by
  have htot : ∀ m, ∃ out, notify m recipients composeRes smtpRes = .ok out := by
    intro m
    by_cases hr : recipients.isEmpty
    · exact ⟨(.noRecipients, false), by simp [notify, hr]⟩
    · cases composeRes with
      | error e => exact ⟨(.failedLogged e, false), by simp [notify, hr]⟩
      | ok u =>
        cases smtpRes with
        | error e => exact ⟨(.failedLogged e, true), by simp [notify, hr]⟩
        | ok v => exact ⟨(.sent recipients m, true), by simp [notify, hr]⟩
  refine ⟨htot message, ?_, ?_, ?_, htot _, htot _⟩
  · intro hr
    simp [notify, hr]
  · intro e hc hr
    have hr' : recipients.isEmpty = false := by
      cases recipients with
      | nil => exact absurd rfl hr
      | cons a l => rfl
    simp [notify, hr', hc]
  · intro e hc hs hr
    have hr' : recipients.isEmpty = false := by
      cases recipients with
      | nil => exact absurd rfl hr
      | cons a l => rfl
    simp [notify, hr', hc, hs]

/-- Witness for C9: a failing SMTP login is caught and logged. -/
theorem notify_never_raises_witness :
    notify "hello" ["a@b.c"] (.ok ()) (.error (.otherError "SMTPAuthenticationError"))
      = .ok (.failedLogged (.otherError "SMTPAuthenticationError"), true) :=
  (notify_never_raises "hello" ["a@b.c"] (.ok ())
      (.error (.otherError "SMTPAuthenticationError"))).2.2.2.1
    (.otherError "SMTPAuthenticationError") rfl rfl (by simp)

/-! ## Scheduler: `src/scheduler.py`

`login` is decorated `@retry(TimeoutException, tries=3, delay=2)`.  The
`retry` library makes at most `tries` attempts in total, sleeping `delay`
seconds after each caught failure that leaves tries remaining, and only
catches the listed exception class; other exceptions propagate at once.
The attempt oracle gives the outcome of the `login` body per attempt. -/

/-- Execution of the `retry` wrapper: result, number of attempts made, and
total seconds slept between attempts. -/
def retryExec (f : Nat → Except PyExc Unit) : Nat → Nat → Except PyExc Unit × Nat × Nat
  | 0, idx => (.ok (), idx, 0)
  | t + 1, idx =>
    match f idx with
    | .ok _ => (.ok (), idx + 1, 0)
    | .error e =>
      if e = .timeoutException then
        if t = 0 then (.error e, idx + 1, 0)
        else
          match retryExec f t (idx + 1) with
          | (r, n, slept) => (r, n, slept + 2)
      else (.error e, idx + 1, 0)

/-- `AppointmentScheduler.login` under `@retry(TimeoutException, tries=3,
delay=2)`: up to three total attempts of the login body. -/
def login (f : Nat → Except PyExc Unit) : Except PyExc Unit × Nat × Nat :=
  retryExec f 3 0

/-- C3 counterexample: a login body that always times out is attempted
exactly 3 times in total (the initial attempt plus two re-attempts, with a
2-second sleep after each caught timeout), not the 4 total attempts that
three re-attempts after the initial failing attempt would give. -/
theorem login_retry_counterexample :
    login (fun _ => .error .timeoutException)
      = (.error .timeoutException, 3, 4)
    ∧ (3 : Nat) ≠ 4 := by
  constructor
  · rfl
  · decide

/-- C3 amended: on `TimeoutException` the login is re-attempted up to two
more times (three total attempts, a 2-second delay after each caught
timeout) before the `TimeoutException` propagates; a success stops the
retrying; an exception other than `TimeoutException` propagates at once
without any re-attempt. -/
theorem login_retry_behavior (f : Nat → Except PyExc Unit) :
    ((∀ i < 3, f i = .error .timeoutException) →
      login f = (.error .timeoutException, 3, 4))
    ∧ (f 0 = .ok () → login f = (.ok (), 1, 0))
    ∧ (f 0 = .error .timeoutException → f 1 = .ok () →
        login f = (.ok (), 2, 2))
    ∧ (f 0 = .error .timeoutException → f 1 = .error .timeoutException →
        f 2 = .ok () → login f = (.ok (), 3, 4))
    ∧ (∀ e, e ≠ .timeoutException → f 0 = .error e →
        login f = (.error e, 1, 0)) := by
  refine ⟨?_, ?_, ?_, ?_, ?_⟩
  · intro h
    have h0 := h 0 (by decide)
    have h1 := h 1 (by decide)
    have h2 := h 2 (by decide)
    simp [login, retryExec, h0, h1, h2]
  · intro h0
    simp [login, retryExec, h0]
  · intro h0 h1
    simp [login, retryExec, h0, h1]
  · intro h0 h1 h2
    simp [login, retryExec, h0, h1, h2]
  · intro e hne h0
    simp [login, retryExec, h0, hne]

/-- Witness for the amended C3: a non-timeout login failure propagates after
a single attempt. -/
theorem login_retry_behavior_witness :
    login (fun _ => .error (.otherError "Login failed: bad credentials"))
      = (.error (.otherError "Login failed: bad credentials"), 1, 0) :=
  (login_retry_behavior
      (fun _ => .error (.otherError "Login failed: bad credentials"))).2.2.2.2
    (.otherError "Login failed: bad credentials") (by decide) rfl

/-- A notification emitted by the scheduler, recorded by which handler method
was called and with which arguments. -/
inductive NotifyCall where
  | error (msg : String)
  | appointmentFound (city date : String)
  | plain (msg : String)
deriving DecidableEq, Repr

/-- Outcome of the `try` body of `navigate_to_reschedule`: the body either
returns `True` (already on the page, or card found and navigation verified)
or raises. -/
def navigate_to_reschedule (body : Except PyExc Unit) : Bool × List NotifyCall :=
  match body with
  | .ok _ => (true, [])
  | .error e =>
    (false, [.error ("Failed to navigate to reschedule page: " ++ excMsg e)])

/-- Outcome of the `try` body of `check_appointments`. -/
inductive CheckBody where
  | found (city date : String)
  | noneFound
  | raised (e : PyExc)
deriving DecidableEq, Repr

/-- `AppointmentScheduler.check_appointments`: a found slot notifies and
returns the triple; no slot returns `(False, None, None)`; an exception is
reported via `notify_error` and re-raised. -/
def check_appointments (body : CheckBody) :
    Except PyExc (Bool × Option String × Option String) × List NotifyCall :=
  match body with
  | .found city date =>
    (.ok (true, some city, some date), [.appointmentFound city date])
  | .noneFound => (.ok (false, Option.none, Option.none), [])
  | .raised e => (.error e, [.error ("Failed to check appointments: " ++ excMsg e)])

/-- Outcome of the `try` body of `book_appointment`: the time dropdown has no
options, the booking goes through to the confirmation page, or something
raises. -/
inductive BookBody where
  | emptyOptions
  | booked
  | raised (e : PyExc)
deriving DecidableEq, Repr

/-- `AppointmentScheduler.book_appointment`: success notifies and returns
`True`; an exception is reported via `notify_error` and `False` is returned;
an empty options list returns `False` with no notification at all. -/
def book_appointment (city date : String) (body : BookBody) :
    Bool × List NotifyCall :=
  match body with
  | .booked =>
    (true, [.plain ("Successfully booked appointment!\nLocation: " ++ city
      ++ "\nDate: " ++ date)])
  | .emptyOptions => (false, [])
  | .raised e => (false, [.error ("Failed to book appointment: " ++ excMsg e)])

/-- C7 counterexample: a `book_appointment` call whose time dropdown has no
options fails (returns `False`) without calling `notify_error` — no email is
sent for this failure. -/
theorem book_appointment_no_options_counterexample :
    book_appointment "Toronto" "2024-03-15" .emptyOptions = (false, []) := by
  rfl

/-- C7 amended: a failing `navigate_to_reschedule`, a raising
`check_appointments` and an exception-failing `book_appointment` each call
`notify_error` with the error message, and `notify_error` composes an email
prefixed `Error occurred: ` addressed to every configured recipient; but a
`book_appointment` that fails because the time dropdown has no options
returns `False` without any notification. -/
theorem key_failures_notified :
    (∀ e, navigate_to_reschedule (.error e) =
      (false, [.error ("Failed to navigate to reschedule page: " ++ excMsg e)]))
    ∧ (∀ e, check_appointments (.raised e) =
      (.error e, [.error ("Failed to check appointments: " ++ excMsg e)]))
    ∧ (∀ city date e, book_appointment city date (.raised e) =
      (false, [.error ("Failed to book appointment: " ++ excMsg e)]))
    ∧ (∀ city date, book_appointment city date .emptyOptions = (false, []))
    ∧ (∀ msg recipients, recipients ≠ [] →
        notify_error msg recipients (.ok ()) (.ok ()) =
          .ok (.sent recipients ("Error occurred: " ++ msg), true)) := by
  refine ⟨fun e => rfl, fun e => rfl, fun c d e => rfl, fun c d => rfl, ?_⟩
  intro msg recipients hr
  have hr' : recipients.isEmpty = false := by
    cases recipients with
    | nil => exact absurd rfl hr
    | cons a l => rfl
  simp [notify_error, notify, hr']

/-- Witness for the amended C7: a navigation failure message reaches both
configured recipients with the `Error occurred: ` prefix. -/
theorem key_failures_notified_witness :
    notify_error "Failed to navigate to reschedule page: no card"
      ["a@b.c", "d@e.f"] (.ok ()) (.ok ()) =
      .ok (.sent ["a@b.c", "d@e.f"]
        "Error occurred: Failed to navigate to reschedule page: no card", true) :=
  key_failures_notified.2.2.2.2
    "Failed to navigate to reschedule page: no card" ["a@b.c", "d@e.f"] (by simp)

/-- How one pass of the `while True:` loop in `run` ends. -/
inductive IterExit where
  | brk
  | cont
  | raised (e : PyExc)
deriving DecidableEq, Repr

/-- One pass of the polling loop in `AppointmentScheduler.run`: check, then
optionally book (breaking the loop on a successful booking), or notify again
in notification-only mode, then sleep and refresh.  `refreshRes` is the
outcome of `self.driver.refresh()`; its exception, like one from
`check_appointments`, leaves the loop and reaches `run`'s handler.  In the
success tuple Python guarantees `city`/`date` are the found strings. -/
def run_iteration (auto_book : Bool) (cb : CheckBody) (bb : BookBody)
    (refreshRes : Except PyExc Unit) : IterExit × List NotifyCall :=
  match check_appointments cb with
  | (.error e, ns) => (.raised e, ns)
  | (.ok (success, city, date), ns) =>
    if success then
      if auto_book then
        match book_appointment (city.getD "") (date.getD "") bb with
        | (true, ns2) => (.brk, ns ++ ns2)
        | (false, ns2) =>
          match refreshRes with
          | .ok _ => (.cont, ns ++ ns2)
          | .error e => (.raised e, ns ++ ns2)
      else
        match refreshRes with
        | .ok _ => (.cont, ns ++ [.appointmentFound (city.getD "") (date.getD "")])
        | .error e => (.raised e, ns ++ [.appointmentFound (city.getD "") (date.getD "")])
    else
      match refreshRes with
      | .ok _ => (.cont, ns)
      | .error e => (.raised e, ns)

/-- The check body reports an available slot. -/
def checkFound : CheckBody → Bool
  | .found _ _ => true
  | _ => false

/-- The check body raises. -/
def checkRaised : CheckBody → Bool
  | .raised _ => true
  | _ => false

/-- An available appointment is successfully handled in this pass: a slot was
found, auto-booking is on, and the booking succeeded. -/
def slotHandled (auto_book : Bool) (cb : CheckBody) (bb : BookBody) : Bool :=
  auto_book && checkFound cb && decide (bb = .booked)

/-- C4: a pass of the polling loop breaks exactly when an available
appointment is successfully handled (found, auto-book on, booking
succeeded); it leaves the loop with an exception exactly when the check
raises or, failing a successful handling, the refresh raises; and it
continues — does not terminate — exactly when neither happens. -/
theorem run_loop_termination (auto_book : Bool) (cb : CheckBody) (bb : BookBody)
    (rr : Except PyExc Unit) :
    ((run_iteration auto_book cb bb rr).1 = .brk ↔
      slotHandled auto_book cb bb = true)
    ∧ ((∃ e, (run_iteration auto_book cb bb rr).1 = .raised e) ↔
      (checkRaised cb = true ∨
        (slotHandled auto_book cb bb = false ∧ ∃ e, rr = .error e)))
    ∧ ((run_iteration auto_book cb bb rr).1 = .cont ↔
      (slotHandled auto_book cb bb = false ∧ checkRaised cb = false ∧ rr = .ok ())) := by
  cases cb <;> cases bb <;> cases rr <;> cases auto_book <;>
    simp [run_iteration, check_appointments, book_appointment, slotHandled,
      checkFound, checkRaised]

/-- Witness for C4: with auto-booking on, a found slot that books breaks the
loop. -/
theorem run_loop_termination_witness :
    (run_iteration true (.found "Toronto" "2024-03-15") .booked (.ok ())).1
      = .brk :=
  (run_loop_termination true (.found "Toronto" "2024-03-15") .booked (.ok ())).1.mpr
    (by decide)

/-- `AppointmentScheduler.run`: everything sits in one `try`; any exception
from driver creation or from the login/navigate/poll body is caught and
logged (`caught`), and the `finally` block calls `driver.quit()` exactly
when `self.driver` is no longer `None`, i.e. when creation succeeded.  The
`Except` return type records that no exception escapes `run`. -/
def run (createRes bodyRes : Except PyExc Unit) :
    Except PyExc (Option PyExc × Bool) :=
  let attempt : Except PyExc Unit :=
    match createRes with
    | .error e => .error e
    | .ok _ => bodyRes
  let caught : Option PyExc :=
    match attempt with
    | .ok _ => Option.none
    | .error e => some e
  let quitCalled : Bool :=
    match createRes with
    | .ok _ => true
    | .error _ => false
  .ok (caught, quitCalled)

/-- C5: `run` always returns normally — any error inside is caught and
logged, never propagated — and on every exit `driver.quit()` is called iff
driver creation happened: not called when `create_driver` raised, called
when the body later raised and when the loop broke normally. -/
theorem run_catches_and_quits (createRes bodyRes : Except PyExc Unit) :
    (∃ logged quitCalled, run createRes bodyRes = .ok (logged, quitCalled))
    ∧ (∀ e, createRes = .error e → run createRes bodyRes = .ok (some e, false))
    ∧ (createRes = .ok () → ∀ e, bodyRes = .error e →
        run createRes bodyRes = .ok (some e, true))
    ∧ (createRes = .ok () → bodyRes = .ok () →
        run createRes bodyRes = .ok (Option.none, true)) := by
  refine ⟨?_, ?_, ?_, ?_⟩
  · cases createRes with
    | error e => exact ⟨some e, false, rfl⟩
    | ok u =>
      cases bodyRes with
      | error e => exact ⟨some e, true, rfl⟩
      | ok v => exact ⟨Option.none, true, rfl⟩
  · intro e h
    rw [h]
    rfl
  · intro h e hb
    rw [h, hb]
    rfl
  · intro h hb
    rw [h, hb]
    rfl

/-- Witness for C5: a body failure is logged and the driver is quit. -/
theorem run_catches_and_quits_witness :
    run (.ok ()) (.error .timeoutException) = .ok (some .timeoutException, true) :=
  (run_catches_and_quits (.ok ()) (.error .timeoutException)).2.2.1 rfl
    .timeoutException rfl
